import Mathlib

/-!
Verification of the SpeechLab client-side voice-agent pipeline.

This file gives a shallow embedding, in Lean 4, of the parts of the
repository that the specification talks about:

* the audio playback scheduler of
  `frontend/src/components/PracticeConversation.js` (`playAudioChunk`,
  `stopAllAudio`, source tracking),
* the capture worklet `AudioProcessor` registered in `audio-processor.js`
  (bundled at the end of `frontend/src/pages/Dashboard.js`),
* the inbound event handlers of `VoiceAgentService.start` in
  `frontend/src/services/voiceAgent.js` (conversation text, errors,
  function-call bridging with its argument defaulting),
* the controller fallback-persistence timer of
  `PracticeConversation.startVoiceAgent`.

Times are modelled as rationals (the audio clock), PCM bytes as natural
numbers below 256, and JavaScript values whose truthiness matters are
modelled by small inductive types whose `truthy` functions follow the
JavaScript coercion rules for the shapes that can actually occur.
-/

/-! ## Playback scheduler (PracticeConversation.js)

The scheduler state consists of `nextPlayTimeRef` and
`activeAudioSourcesRef`.  A scheduled `AudioBufferSourceNode` is modelled
by its start time, its buffer duration, the decoded samples and a status;
`stop()` on a node that has already finished playing has no effect, which
the `SourceStatus` transition function records. -/

set_option maxRecDepth 4000

inductive SourceStatus where
  | playing : SourceStatus
  | finished : SourceStatus
  | stopped : SourceStatus
deriving DecidableEq, Repr

structure Source where
  startTime : ℚ
  duration : ℚ
  samples : List ℚ
  status : SourceStatus
deriving DecidableEq, Repr

structure PlaybackState where
  nextPlayTime : ℚ
  activeSources : List Source
deriving DecidableEq, Repr

/-- State right after `startVoiceAgent` resets `nextPlayTimeRef.current = 0`
and before any chunk arrives. -/
def initialPlaybackState : PlaybackState := ⟨0, []⟩

/-- Validity test from `playAudioChunk`:
`audioBytes.length < 2 || audioBytes.length % 2 !== 0` drops the chunk. -/
def validChunkLen (n : ℕ) : Bool := !(n < 2 || n % 2 != 0)

/-- Little-endian signed 16-bit read, `dataView.getInt16(i * 2, true)`. -/
def int16OfBytes (lo hi : ℕ) : ℤ :=
  let u : ℕ := lo % 256 + 256 * (hi % 256)
  if u < 32768 then (u : ℤ) else (u : ℤ) - 65536

/-- Decode loop of `playAudioChunk`:
`channelData[i] = dataView.getInt16(i * 2, true) / 32768.0`. -/
def decodeSamples : List ℕ → List ℚ
  | lo :: hi :: rest => (int16OfBytes lo hi : ℚ) / 32768 :: decodeSamples rest
  | _ => []

/-- Duration of a decoded chunk: the buffer is created with
`sampleCount = audioBytes.length / 2` frames at 24000 Hz, so
`audioBuffer.duration = sampleCount / 24000`. -/
def chunkDuration (numBytes : ℕ) : ℚ := ((numBytes / 2 : ℕ) : ℚ) / 24000

/-- One call of `playAudioChunk(audioData)` at audio-clock time
`currentTime`, acting on the scheduler state.  Invalid chunks are dropped
(warned about) and leave the state unchanged; valid chunks are decoded,
scheduled at `max(currentTime, nextPlayTimeRef.current)`, pushed onto the
tracking array, and `nextPlayTimeRef.current` becomes
`startTime + duration`. -/
def playAudioChunk (currentTime : ℚ) (bytes : List ℕ) (st : PlaybackState) :
    PlaybackState :=
  if validChunkLen bytes.length then
    let startTime := max currentTime st.nextPlayTime
    let dur := chunkDuration bytes.length
    { nextPlayTime := startTime + dur,
      activeSources :=
        st.activeSources ++ [⟨startTime, dur, decodeSamples bytes, .playing⟩] }
  else st

/-- Enqueue a burst of chunks with no delay between enqueues: every call
sees the same audio-clock reading `currentTime`. -/
def enqueueChunks (currentTime : ℚ) (chunks : List (List ℕ))
    (st : PlaybackState) : PlaybackState :=
  chunks.foldl (fun s c => playAudioChunk currentTime c s) st

/-- Effect of `source.stop()` inside the `forEach` of `stopAllAudio`:
halting a playing source, and a no-op (not an error) on a source that
already finished. -/
def stopSource (s : Source) : Source :=
  match s.status with
  | .finished => s
  | _ => { s with status := .stopped }

/-- The `stopAllAudio` interrupt.  First component: the new scheduler
state (tracking array emptied, `nextPlayTimeRef.current` reset to
`audioContextRef.current ? audioContextRef.current.currentTime : 0`).
Second component: the previously tracked sources after the `stop()`
calls made on each of them. -/
def stopAllAudio (ctxTime : Option ℚ) (st : PlaybackState) :
    PlaybackState × List Source :=
  (⟨ctxTime.getD 0, []⟩, st.activeSources.map stopSource)

/-- The predicate the controller consults for barge-in: the tracking set
is non-empty (`activeAudioSourcesRef.current.length > 0`). -/
def agentSpeaking (st : PlaybackState) : Bool := !st.activeSources.isEmpty

/-- The `onended` handler of a scheduled source: the source removes
itself from the tracking array on natural completion. -/
def sourceEnded (st : PlaybackState) (s : Source) : PlaybackState :=
  { st with activeSources := st.activeSources.erase s }

/-- One inbound chunk of the ten-chunk scenario: 4800 bytes, i.e. 2400
16-bit samples, 0.1 s at 24 kHz. -/
def chunk4800 : List ℕ := List.replicate 4800 0

/-- Ten 4800-byte chunks enqueued back to back. -/
def tenChunkBurst : List (List ℕ) :=
  [chunk4800, chunk4800, chunk4800, chunk4800, chunk4800,
   chunk4800, chunk4800, chunk4800, chunk4800, chunk4800]

/-! ## Capture worklet (audio-processor.js, bundled in Dashboard.js)

The `AudioProcessor` worklet converts 32-bit float blocks to 16-bit
signed integers and posts them to the main thread.  Float samples are
modelled as rationals; the `Int16Array` element store truncates the
scaled value toward zero. -/

structure AudioProcessor where
  stopProcessing : Bool
deriving DecidableEq, Repr

/-- The constructor installs `this.port.onmessage`: receiving the string
"stop" sets `stopProcessing`; every other message is ignored. -/
def AudioProcessor.onPortMessage (p : AudioProcessor) (data : String) :
    AudioProcessor :=
  if data = "stop" then { p with stopProcessing := true } else p

/-- Clamp of one sample, `Math.max(-1, Math.min(1, inputData[i]))`. -/
def clampSample (x : ℚ) : ℚ := max (-1) (min 1 x)

/-- Truncation toward zero performed by the `Int16Array` element store
(ToIntegerOrInfinity); the scaled values below stay inside the signed
16-bit range, so no wrap-around occurs. -/
def truncTowardZero (q : ℚ) : ℤ := if 0 ≤ q then ⌊q⌋ else ⌈q⌉

/-- Per-sample conversion, `s < 0 ? s * 0x8000 : s * 0x7FFF` after the
clamp. -/
def floatToInt16 (x : ℚ) : ℤ :=
  let s := clampSample x
  truncTowardZero (if s < 0 then s * 32768 else s * 32767)

/-- Result of one `process` callback: the returned keep-alive flag and
the samples posted to the main thread, if any.  The posted
`int16Data.buffer` is moved as a transferable, the worklet keeps no
copy. -/
structure WorkletOutput where
  keepAlive : Bool
  posted : Option (List ℤ)
deriving DecidableEq, Repr

/-- The `process(inputs, outputs, parameters)` callback.  `input` models
`inputs[0]` (absent or a list of channels); the first channel is the
rendered block.  When stopped it returns the terminal status `false`
and posts nothing; otherwise it posts the converted block unless the
input block is absent or empty. -/
def AudioProcessor.process (p : AudioProcessor)
    (input : Option (List (List ℚ))) : WorkletOutput :=
  if p.stopProcessing then ⟨false, none⟩
  else
    match input with
    | none => ⟨true, none⟩
    | some channels =>
      match channels with
      | [] => ⟨true, none⟩
      | inputData :: _ =>
        if inputData.length > 0 then
          ⟨true, some (inputData.map floatToInt16)⟩
        else ⟨true, none⟩

/-- Byte length of the transferred `Int16Array(n).buffer`: two bytes per
sample. -/
def postedByteLength (msg : List ℤ) : ℕ := 2 * msg.length

/-! ## JavaScript string truthiness

The inbound event handlers of `VoiceAgentService.start` lean on
JavaScript coercion: `undefined` and the empty string are falsy, every
other string is truthy, and `a || b` yields `a` when `a` is truthy and
`b` otherwise. -/

def truthyStr : Option String → Bool
  | none => false
  | some s => if s = "" then false else true

def jsOrStr (a b : Option String) : Option String :=
  if truthyStr a then a else b

/-! ## Conversation text events (voiceAgent.js, ConversationText handler)

The handler classifies each message by `role = message.role ||
message.sender` and `content = message.content || message.text ||
message.message`, appends a turn to `this.conversationHistory`, and
forwards the content through `onTranscript` or `onAgentText`. -/

structure Turn where
  role : String
  content : String
deriving DecidableEq, Repr

structure ConversationTextMessage where
  role : Option String
  sender : Option String
  content : Option String
  text : Option String
  message : Option String
deriving DecidableEq, Repr

/-- Which UI callback the handler invoked for one event. -/
inductive TextDispatch where
  | noCallback : TextDispatch
  | userTranscript : String → TextDispatch
  | agentText : String → TextDispatch
deriving DecidableEq, Repr

/-- The `AgentEvents.ConversationText` handler: returns the new
conversation history and the callback invocation it performed. -/
def handleConversationText (history : List Turn)
    (msg : Option ConversationTextMessage) : List Turn × TextDispatch :=
  match msg with
  | none => (history, .noCallback)
  | some m =>
    let role := jsOrStr m.role m.sender
    let content := jsOrStr (jsOrStr m.content m.text) m.message
    if truthyStr content then
      let c := content.getD ""
      if role = some "user" ∨ truthyStr role = false then
        (history ++ [⟨"user", c⟩], .userTranscript c)
      else if role = some "agent" ∨ role = some "assistant" then
        (history ++ [⟨"assistant", c⟩], .agentText c)
      else
        (history, .noCallback)
    else (history, .noCallback)

/-! ## Transport error events (voiceAgent.js, the two Error handlers)

Two handlers are registered on `AgentEvents.Error`.  The first lives in
the `connectionOpened` promise and rejects `start()` only before
configuration completes; the second ignores the known spurious shapes
and logs the rest.  Neither handler, in any state, invokes the
`onError` callback: `onError` is reached only from the catch block of
`start()` itself. -/

structure AgentErrorEvent where
  code : Option String
  description : Option String
deriving DecidableEq, Repr

/-- Model of `error.description?.includes("Buffer")`. -/
def includesBuffer (d : Option String) : Bool :=
  match d with
  | some s => decide ("Buffer".toList <:+: s.toList)
  | none => false

/-- What one handler does with one error event. -/
inductive ErrorDisposition where
  | rejectStartPromise : ErrorDisposition
  | warnLog : ErrorDisposition
  | suppressed : ErrorDisposition
  | surfacedToOnError : ErrorDisposition
deriving DecidableEq, Repr

/-- First `AgentEvents.Error` handler (inside the `connectionOpened`
promise). -/
def openPhaseErrorHandler (configurationComplete : Bool)
    (e : AgentErrorEvent) : ErrorDisposition :=
  if configurationComplete = false then .rejectStartPromise
  else if e.code ≠ some "INVALID_SETTINGS" ∧ includesBuffer e.description = false
  then .warnLog
  else .suppressed

/-- Second `AgentEvents.Error` handler (registered after the promise for
post-configuration errors). -/
def postConfigErrorHandler (configurationComplete : Bool)
    (e : AgentErrorEvent) : ErrorDisposition :=
  if configurationComplete then
    if e.code = some "INVALID_SETTINGS" ∨ includesBuffer e.description = true
    then .suppressed
    else .warnLog
  else .suppressed

/-- Both registered handlers run on every error event.  The
`endSequenceBegun` flag (the controller has begun an end-of-conversation
sequence) is passed in to record that neither handler consults any such
state: it does not occur in the body. -/
def errorEventDispositions (configurationComplete : Bool)
    (endSequenceBegun : Bool) (e : AgentErrorEvent) : List ErrorDisposition :=
  [openPhaseErrorHandler configurationComplete e,
   postConfigErrorHandler configurationComplete e]

/-! ## Tool/function-call bridge (voiceAgent.js, FunctionCallRequest handler)

The handler extracts `function_call_id`, `function_name` and
`parameters` from one of three event shapes, runs the recognized call
against the backend, and always answers the agent with one
`FunctionCallResponse` message; a thrown error is answered from the
catch block, which re-extracts the id with a different field
precedence.  Argument values keep their JavaScript truthiness: an
absent, null or empty-string argument is falsy, an array (even an empty
one) and a non-zero number are truthy. -/

/-- Value found in the `conversation_transcript` argument slot. -/
inductive TranscriptArg where
  | undef : TranscriptArg
  | nullv : TranscriptArg
  | emptyStr : TranscriptArg
  | arr : List Turn → TranscriptArg
deriving DecidableEq, Repr

/-- Value found in the `duration_seconds` argument slot. -/
inductive DurationArg where
  | undef : DurationArg
  | nullv : DurationArg
  | num : ℤ → DurationArg
deriving DecidableEq, Repr

/-- Elapsed-seconds computation used when `duration_seconds` is falsy:
`this.conversationStartTime ? Math.floor((Date.now() -
this.conversationStartTime) / 1000) : 0`.  Timestamps are milliseconds
since the epoch. -/
def elapsedSeconds (conversationStartTime : Option ℕ) (now : ℕ) : ℤ :=
  match conversationStartTime with
  | some start => (((now - start) / 1000 : ℕ) : ℤ)
  | none => 0

/-- JavaScript `parameters.conversation_transcript ||
this.conversationHistory`: an array value, empty or not, is truthy and
wins; `undefined`, `null` and the empty string fall back to the session
history. -/
def resolveTranscript (arg : TranscriptArg) (history : List Turn) :
    List Turn :=
  match arg with
  | .arr turns => turns
  | _ => history

/-- JavaScript `parameters.duration_seconds || (this.conversationStartTime
? Math.floor(...) : 0)`: the number 0 is falsy and is substituted. -/
def resolveDuration (arg : DurationArg) (conversationStartTime : Option ℕ)
    (now : ℕ) : ℤ :=
  match arg with
  | .num n => if n = 0 then elapsedSeconds conversationStartTime now else n
  | _ => elapsedSeconds conversationStartTime now

/-- Parsed argument object of a function call. -/
structure FunctionArgs where
  conversation_transcript : TranscriptArg
  duration_seconds : DurationArg
  analysis : Option String
deriving DecidableEq, Repr

/-- The empty object `{}` used when no arguments are supplied. -/
def FunctionArgs.emptyObj : FunctionArgs := ⟨.undef, .undef, none⟩

/-- Raw `arguments` field: a JSON string (or object) that either decodes
to an argument object or fails `JSON.parse`. -/
inductive RawArguments where
  | jsonOf : FunctionArgs → RawArguments
  | malformedJson : RawArguments
deriving DecidableEq, Repr

/-- `event.*.arguments ? JSON.parse(event.*.arguments) : {}`; a parse
failure throws into the surrounding try. -/
def parseArguments : Option RawArguments → Except String FunctionArgs
  | none => .ok FunctionArgs.emptyObj
  | some (.jsonOf a) => .ok a
  | some .malformedJson => .error "Unexpected token in JSON"

/-- The nested `event.function_call` object of the standard shape. -/
structure FunctionCallPayload where
  id : Option String
  name : Option String
  arguments : Option RawArguments
deriving DecidableEq, Repr

/-- A `FunctionCallRequest` event with every field the handler probes. -/
structure FunctionCallEvent where
  function_call : Option FunctionCallPayload
  id : Option String
  name : Option String
  arguments : Option RawArguments
  function_call_id : Option String
  function_name : Option String
  parameters : Option FunctionArgs
deriving DecidableEq, Repr

/-- The three-branch extraction at the top of the handler, returning
`(function_call_id, function_name, parameters)`; parsing happens during
extraction, so a malformed `arguments` string escapes as an error before
the id/name check runs. -/
def extractFunctionCall (ev : FunctionCallEvent) :
    Option String × Option String × Except String FunctionArgs :=
  match ev.function_call with
  | some fc => (fc.id, fc.name, parseArguments fc.arguments)
  | none =>
    if truthyStr ev.id && truthyStr ev.name then
      (ev.id, ev.name, parseArguments ev.arguments)
    else
      (jsOrStr ev.function_call_id ev.id,
       jsOrStr ev.function_name ev.name,
       match ev.parameters with
       | some p => .ok p
       | none => parseArguments ev.arguments)

/-- Outcome of one backend `fetch`: an ok response with its decoded
payload, or a non-ok status. -/
inductive BackendReply where
  | okJson : String → BackendReply
  | httpError : String → BackendReply
deriving DecidableEq, Repr

/-- Outcomes the two backend endpoints would return for this call. -/
structure Backend where
  analyzeConversation : BackendReply
  savePracticeHistory : BackendReply
deriving DecidableEq, Repr

/-- Body of one POST issued to the backend. -/
structure BackendRequest where
  endpoint : String
  conversation_transcript : List Turn
  duration_seconds : ℤ
  analysis : Option String
deriving DecidableEq, Repr

/-- Content of a `FunctionCallResponse` sent back to the agent
(`JSON.stringify` of the result object, kept symbolic). -/
inductive ResponseContent where
  | success : String → ResponseContent
  | unknownFunction : String → ResponseContent
  | failure : String → ResponseContent
deriving DecidableEq, Repr

/-- The `FunctionCallResponse` message sent over the connection. -/
structure FunctionCallResponse where
  id : String
  name : String
  content : ResponseContent
deriving DecidableEq, Repr

/-- The try block of the deferred handler body: the backend requests it
issues, and either the responses it sends or the error that escapes to
the catch block. -/
def functionCallTry (ev : FunctionCallEvent) (backend : Backend)
    (history : List Turn) (conversationStartTime : Option ℕ) (now : ℕ) :
    List BackendRequest × Except String (List FunctionCallResponse) :=
  match extractFunctionCall ev with
  | (idO, nameO, .error msg) =>
    let _ := idO
    let _ := nameO
    ([], .error msg)
  | (idO, nameO, .ok args) =>
    if truthyStr idO = false ∨ truthyStr nameO = false then ([], .ok [])
    else
      let fid := idO.getD ""
      let fname := nameO.getD ""
      if fname = "analyze_conversation_practice" then
        let transcript := resolveTranscript args.conversation_transcript history
        let dur := resolveDuration args.duration_seconds conversationStartTime now
        let req : BackendRequest := ⟨"analyze-conversation", transcript, dur, none⟩
        match backend.analyzeConversation with
        | .okJson payload => ([req], .ok [⟨fid, fname, .success payload⟩])
        | .httpError s => ([req], .error ("Analysis failed: " ++ s))
      else if fname = "save_conversation_to_history" then
        let transcript := resolveTranscript args.conversation_transcript history
        let dur := resolveDuration args.duration_seconds conversationStartTime now
        let req : BackendRequest := ⟨"save-practice-history", transcript, dur, args.analysis⟩
        match backend.savePracticeHistory with
        | .okJson payload => ([req], .ok [⟨fid, fname, .success payload⟩])
        | .httpError s => ([req], .error ("Save failed: " ++ s))
      else
        ([], .ok [⟨fid, fname, .unknownFunction fname⟩])

/-- Catch-block id re-extraction, `event.function_call?.id || event.id ||
event.function_call_id`. -/
def catchFunctionCallId (ev : FunctionCallEvent) : Option String :=
  jsOrStr (jsOrStr (ev.function_call.bind FunctionCallPayload.id) ev.id)
    ev.function_call_id

/-- Catch-block name re-extraction, `event.function_call?.name ||
event.name || event.function_name || "unknown"`. -/
def catchFunctionCallName (ev : FunctionCallEvent) : String :=
  (jsOrStr (jsOrStr (jsOrStr (ev.function_call.bind FunctionCallPayload.name)
      ev.name) ev.function_name) (some "unknown")).getD "unknown"

/-- The whole deferred handler body: try block plus catch block.  The
catch block sends an error `FunctionCallResponse` only when the
re-extracted id is truthy. -/
def handleFunctionCallRequest (ev : FunctionCallEvent) (backend : Backend)
    (history : List Turn) (conversationStartTime : Option ℕ) (now : ℕ) :
    List BackendRequest × List FunctionCallResponse :=
  match functionCallTry ev backend history conversationStartTime now with
  | (reqs, .ok resps) => (reqs, resps)
  | (reqs, .error msg) =>
    if truthyStr (catchFunctionCallId ev) then
      (reqs, [⟨(catchFunctionCallId ev).getD "", catchFunctionCallName ev,
               .failure msg⟩])
    else (reqs, [])

/-! ## Controller fallback persistence (PracticeConversation.startVoiceAgent)

The `onAnalysisReady` argument of the controller stores the analysis and
arms an 8-second timer whose body is

  if (analysisForFallback && isVoiceActive && voiceAgentRef.current) { fetch(save-practice-history) ... }

`isVoiceActive` there is the `const` binding of the render in which
`startVoiceAgent` ran.  The start button is rendered only while
`isVoiceActive` is false, and `setIsVoiceActive(true)` (called after
`start()` resolves) rebinds a fresh `const` in a later render without
changing the captured one, so the timer body always reads `false`.
Independently, `VoiceAgentService.start` declares six parameters
(`analysisData, onTranscript, onAgentSpeaking, onAgentText, onError,
mode`), so the seventh and eighth arguments the controller passes —
`onAnalysisReady` and `onSaveComplete` — are never invoked at all. -/

/-- Number of save-practice-history requests the timer body issues when
it fires. -/
def fallbackTimerBody (analysisForFallback : Bool)
    (isVoiceActiveCaptured : Bool) (voiceAgentRefPresent : Bool) : ℕ :=
  if analysisForFallback && isVoiceActiveCaptured && voiceAgentRefPresent
  then 1 else 0

/-- Value of the `isVoiceActive` binding captured by the callbacks
created in `startVoiceAgent`. -/
def isVoiceActiveAtCallbackCreation : Bool := false

/-- Parameter list of `VoiceAgentService.start`. -/
def voiceAgentStartParams : List String :=
  ["analysisData", "onTranscript", "onAgentSpeaking", "onAgentText",
   "onError", "mode"]

/-- Argument list `PracticeConversation.startVoiceAgent` passes to
`voiceAgentRef.current.start`. -/
def practiceStartArguments : List String :=
  ["analysisData", "onTranscript", "onAgentSpeaking", "onAgentText",
   "onError", "mode", "onAnalysisReady", "onSaveComplete"]

/-! ## Example inputs used by witnesses and counterexamples -/

/-- A malformed five-byte chunk. -/
def fiveByteChunk : List ℕ := [0, 0, 0, 0, 0]

/-- A scheduler state with one playing and one already-finished tracked
source and a pending backlog. -/
def demoPlayback : PlaybackState :=
  ⟨2/10, [⟨0, 1/10, [], .playing⟩, ⟨1/10, 1/10, [], .finished⟩]⟩

/-- A conversation-text event with non-empty content and the
unrecognized role value "system". -/
def systemRoleMessage : ConversationTextMessage :=
  ⟨some "system", none, some "hi", none, none⟩

/-- A post-configuration transport error event of an unlisted shape. -/
def closeErrorEvent : AgentErrorEvent :=
  ⟨some "CONNECTION_ERROR", some "agent closed the connection"⟩

/-- A function-call event carrying an id in its flat `id` field but no
name in any field. -/
def missingNameEvent : FunctionCallEvent :=
  ⟨none, some "c1", none, none, none, none, none⟩

/-- A standard-shape analyze call with no arguments supplied. -/
def analyzeCallEvent : FunctionCallEvent :=
  ⟨some ⟨some "id1", some "analyze_conversation_practice", none⟩,
   none, none, none, none, none, none⟩

/-- A standard-shape analyze call explicitly supplying the empty array
as transcript and 0 as duration. -/
def emptyArrayAnalyzeEvent : FunctionCallEvent :=
  ⟨some ⟨some "a1", some "analyze_conversation_practice",
     some (.jsonOf ⟨.arr [], .num 0, none⟩)⟩,
   none, none, none, none, none, none⟩

/-- A backend whose two endpoints both succeed. -/
def backendAllOk : Backend := ⟨.okJson "analysis-result", .okJson "save-result"⟩

/-- A session history with one accumulated turn. -/
def oneTurnHistory : List Turn := [⟨"user", "hello"⟩]

/-! ## Theorems -/

/-- C1: a valid inbound chunk is scheduled at
`max(currentClockTime, nextAvailableTime)` and the next-available time
becomes that start plus the chunk duration; consequently ten 4800-byte
chunks (0.1 s each) enqueued with no delay occupy the contiguous,
non-overlapping span of exactly 1.0 s, in enqueue order. -/
theorem playAudioChunk_gapless_contiguous
    (currentTime : ℚ) (st : PlaybackState) (bytes : List ℕ)
    (h : validChunkLen bytes.length = true) :
    playAudioChunk currentTime bytes st
        = { nextPlayTime := max currentTime st.nextPlayTime
              + chunkDuration bytes.length,
            activeSources := st.activeSources
              ++ [⟨max currentTime st.nextPlayTime, chunkDuration bytes.length,
                   decodeSamples bytes, SourceStatus.playing⟩] }
    ∧ (enqueueChunks 0 tenChunkBurst initialPlaybackState).nextPlayTime = 1
    ∧ (enqueueChunks 0 tenChunkBurst initialPlaybackState).activeSources.map
        Source.startTime
        = [0, 1/10, 2/10, 3/10, 4/10, 5/10, 6/10, 7/10, 8/10, 9/10]
    ∧ (enqueueChunks 0 tenChunkBurst initialPlaybackState).activeSources.map
        Source.duration = List.replicate 10 (1/10) := by
  have hlen : chunk4800.length = 4800 := by rw [chunk4800, List.length_replicate]
  have hv : validChunkLen 4800 = true := by decide
  refine ⟨by simp [playAudioChunk, h], ?_, ?_, ?_⟩
  all_goals
    simp [enqueueChunks, tenChunkBurst, playAudioChunk, hlen, hv, chunkDuration,
      initialPlaybackState]
    norm_num [List.replicate]

/-- Witness for C1 at concrete inputs. -/
theorem playAudioChunk_gapless_contiguous_witness :
    (enqueueChunks 0 tenChunkBurst initialPlaybackState).nextPlayTime = 1
    ∧ playAudioChunk 7 chunk4800 initialPlaybackState
        = { nextPlayTime := max 7 initialPlaybackState.nextPlayTime
              + chunkDuration chunk4800.length,
            activeSources := initialPlaybackState.activeSources
              ++ [⟨max 7 initialPlaybackState.nextPlayTime,
                   chunkDuration chunk4800.length,
                   decodeSamples chunk4800, SourceStatus.playing⟩] } :=
  have h : validChunkLen chunk4800.length = true := by
    rw [chunk4800, List.length_replicate]; decide
  ⟨(playAudioChunk_gapless_contiguous 7 initialPlaybackState chunk4800 h).2.1,
   (playAudioChunk_gapless_contiguous 7 initialPlaybackState chunk4800 h).1⟩

/-- C6: a chunk whose byte length is odd or below two is dropped with a
warning: the call returns normally and the scheduler state — the
next-available time and the tracked sources — is exactly as before. -/
theorem invalid_chunk_dropped
    (currentTime : ℚ) (st : PlaybackState) (bytes : List ℕ)
    (h : validChunkLen bytes.length = false) :
    playAudioChunk currentTime bytes st = st
    ∧ (playAudioChunk currentTime bytes st).nextPlayTime = st.nextPlayTime
    ∧ (playAudioChunk currentTime bytes st).activeSources = st.activeSources := by
  have he : playAudioChunk currentTime bytes st = st := by
    simp [playAudioChunk, h]
  exact ⟨he, by rw [he], by rw [he]⟩

/-- Witness for C6: the five-byte chunk of the spec scenario. -/
theorem invalid_chunk_dropped_witness :
    playAudioChunk 3 fiveByteChunk demoPlayback = demoPlayback :=
  (invalid_chunk_dropped 3 demoPlayback fiveByteChunk (by decide)).1

/-- C3: the interrupt stops every tracked source (a finished source is
left untouched, not an error), empties the tracking set so the
agent-speaking predicate is false immediately, resets the next-available
time to the current clock reading, and a chunk enqueued afterwards is
scheduled at the enqueue-time clock, not after the old backlog. -/
theorem stopAllAudio_interrupt (t : ℚ) (st : PlaybackState) :
    (stopAllAudio (some t) st).1.activeSources = []
    ∧ agentSpeaking (stopAllAudio (some t) st).1 = false
    ∧ (stopAllAudio (some t) st).1.nextPlayTime = t
    ∧ (stopAllAudio (some t) st).2 = st.activeSources.map stopSource
    ∧ (∀ s ∈ (stopAllAudio (some t) st).2, s.status ≠ SourceStatus.playing)
    ∧ (∀ s : Source, s.status = SourceStatus.finished → stopSource s = s)
    ∧ (∀ u bytes, t ≤ u → validChunkLen bytes.length = true →
        (playAudioChunk u bytes (stopAllAudio (some t) st).1).activeSources.map
          Source.startTime = [u]) := by
  refine ⟨rfl, rfl, rfl, rfl, ?_, ?_, ?_⟩
  · intro s hs
    simp only [stopAllAudio, List.mem_map] at hs
    obtain ⟨s0, _, rfl⟩ := hs
    cases h0 : s0.status <;> simp [stopSource, h0]
  · intro s hfin
    simp [stopSource, hfin]
  · intro u bytes hu hvb
    have hmax : max u t = u := max_eq_left hu
    simp [playAudioChunk, hvb, stopAllAudio, hmax]

/-- Witness for C3 at concrete inputs. -/
theorem stopAllAudio_interrupt_witness :
    (stopAllAudio (some 5) demoPlayback).1.nextPlayTime = 5
    ∧ agentSpeaking (stopAllAudio (some 5) demoPlayback).1 = false
    ∧ (playAudioChunk 6 [1, 2] (stopAllAudio (some 5) demoPlayback).1
        ).activeSources.map Source.startTime = [6] :=
  ⟨(stopAllAudio_interrupt 5 demoPlayback).2.2.1,
   (stopAllAudio_interrupt 5 demoPlayback).2.1,
   (stopAllAudio_interrupt 5 demoPlayback).2.2.2.2.2.2 6 [1, 2]
     (by norm_num) (by decide)⟩

lemma clampSample_mem (x : ℚ) : -1 ≤ clampSample x ∧ clampSample x ≤ 1 := by
  refine ⟨le_max_left _ _, max_le (by norm_num) (min_le_left _ _)⟩

lemma clampSample_of_mem {x : ℚ} (h1 : -1 ≤ x) (h2 : x ≤ 1) :
    clampSample x = x := by
  unfold clampSample
  rw [min_eq_right h2, max_eq_right h1]

lemma truncTowardZero_bounds {q : ℚ} (h1 : -32768 ≤ q) (h2 : q ≤ 32767) :
    -32768 ≤ truncTowardZero q ∧ truncTowardZero q ≤ 32767 := by
  unfold truncTowardZero
  split_ifs with h0
  · constructor
    · exact Int.le_floor.mpr (by exact_mod_cast h1)
    · have hle : (⌊q⌋ : ℚ) ≤ 32767 := le_trans (Int.floor_le q) h2
      exact_mod_cast hle
  · constructor
    · have hle : (-32768 : ℚ) ≤ (⌈q⌉ : ℚ) := le_trans h1 (Int.le_ceil q)
      exact_mod_cast hle
    · exact Int.ceil_le.mpr (by exact_mod_cast h2)

lemma floatToInt16_range (x : ℚ) :
    -32768 ≤ floatToInt16 x ∧ floatToInt16 x ≤ 32767 := by
  obtain ⟨h1, h2⟩ := clampSample_mem x
  simp only [floatToInt16]
  split_ifs with hneg
  · exact truncTowardZero_bounds (by nlinarith) (by nlinarith)
  · exact truncTowardZero_bounds (by nlinarith) (by nlinarith)

/-- C5: while not stopped, the worklet posts, for every non-empty input
block, the block converted sample-by-sample (clamp to [-1,1], negative
values scaled by 32768, non-negative ones by 32767, stored as a 16-bit
signed integer); after the asynchronous "stop" message the next callback
returns the terminal status false and posts nothing. -/
theorem audioProcessor_convert_and_stop
    (p : AudioProcessor) (inputData : List ℚ) (channels : List (List ℚ))
    (hrun : p.stopProcessing = false) (hne : inputData ≠ []) :
    AudioProcessor.process p (some (inputData :: channels))
        = ⟨true, some (inputData.map floatToInt16)⟩
    ∧ (∀ x : ℚ, -32768 ≤ floatToInt16 x ∧ floatToInt16 x ≤ 32767)
    ∧ (∀ x : ℚ, -1 ≤ x → x < 0 → floatToInt16 x = truncTowardZero (x * 32768))
    ∧ (∀ x : ℚ, 0 ≤ x → x ≤ 1 → floatToInt16 x = truncTowardZero (x * 32767))
    ∧ (∀ x : ℚ, x ≤ -1 → floatToInt16 x = -32768)
    ∧ (∀ x : ℚ, 1 ≤ x → floatToInt16 x = 32767)
    ∧ (AudioProcessor.onPortMessage p "stop").stopProcessing = true
    ∧ (∀ input, (AudioProcessor.onPortMessage p "stop").process input
          = ⟨false, none⟩) := by
  refine ⟨?_, floatToInt16_range, ?_, ?_, ?_, ?_, ?_, ?_⟩
  · have hlen : inputData.length > 0 := List.length_pos.mpr hne
    simp [AudioProcessor.process, hrun, hlen]
  · intro x hx1 hx2
    have hc : clampSample x = x := clampSample_of_mem hx1 (by linarith)
    simp [floatToInt16, hc, hx2]
  · intro x hx1 hx2
    have hc : clampSample x = x := clampSample_of_mem (by linarith) hx2
    simp [floatToInt16, hc, not_lt.mpr hx1]
  · intro x hx
    have hc : clampSample x = -1 := by
      unfold clampSample
      rw [min_eq_right (by linarith), max_eq_left hx]
    have hcast : ((-32768 : ℚ)) = (((-32768 : ℤ)) : ℚ) := by norm_num
    norm_num [floatToInt16, hc, truncTowardZero]
    rw [hcast, Int.ceil_intCast]
  · intro x hx
    have hc : clampSample x = 1 := by
      unfold clampSample
      rw [min_eq_left hx, max_eq_right (by norm_num : (-1 : ℚ) ≤ 1)]
    have hcast : ((32767 : ℚ)) = (((32767 : ℤ)) : ℚ) := by norm_num
    norm_num [floatToInt16, hc, truncTowardZero]
  · simp [AudioProcessor.onPortMessage]
  · intro input
    simp [AudioProcessor.onPortMessage, AudioProcessor.process]

/-- Witness for C5 at concrete inputs. -/
theorem audioProcessor_convert_and_stop_witness :
    AudioProcessor.process ⟨false⟩ (some [[1/2]])
        = ⟨true, some ([1/2].map floatToInt16)⟩
    ∧ (AudioProcessor.onPortMessage ⟨false⟩ "stop").process (some [[1/2]])
        = ⟨false, none⟩ :=
  ⟨(audioProcessor_convert_and_stop ⟨false⟩ [1/2] [] rfl (by decide)).1,
   (audioProcessor_convert_and_stop ⟨false⟩ [1/2] [] rfl
      (by decide)).2.2.2.2.2.2.2 (some [[1/2]])⟩

/-- C9: every frame the worklet posts holds exactly two bytes per input
sample, hence a positive even byte count that passes the playback-side
validity check; absent or empty input blocks post nothing. -/
theorem capture_frames_never_malformed (p : AudioProcessor) :
    (∀ input msg, (AudioProcessor.process p input).posted = some msg →
        postedByteLength msg = 2 * msg.length
        ∧ 2 ≤ postedByteLength msg
        ∧ postedByteLength msg % 2 = 0
        ∧ validChunkLen (postedByteLength msg) = true)
    ∧ (∀ inputData channels msg,
        (AudioProcessor.process p (some (inputData :: channels))).posted
            = some msg → msg.length = inputData.length)
    ∧ (AudioProcessor.process p none).posted = none
    ∧ (AudioProcessor.process p (some [])).posted = none
    ∧ (∀ channels,
        (AudioProcessor.process p (some ([] :: channels))).posted = none) := by
  have post_shape : ∀ input msg,
      (AudioProcessor.process p input).posted = some msg →
      ∃ inputData, msg = inputData.map floatToInt16 ∧ inputData ≠ [] := by
    intro input msg h
    by_cases hstop : p.stopProcessing
    · simp [AudioProcessor.process, hstop] at h
    · match input with
      | none => simp [AudioProcessor.process, hstop] at h
      | some [] => simp [AudioProcessor.process, hstop] at h
      | some (inputData :: channels) =>
        rcases Nat.eq_zero_or_pos inputData.length with h0 | h0
        · simp [AudioProcessor.process, hstop, h0] at h
        · simp [AudioProcessor.process, hstop, h0] at h
          exact ⟨inputData, h.symm, List.length_pos.mp h0⟩
  refine ⟨?_, ?_, ?_, ?_, ?_⟩
  · intro input msg h
    obtain ⟨inputData, rfl, hne⟩ := post_shape input msg h
    have hlen : 0 < inputData.length := List.length_pos.mpr hne
    refine ⟨rfl, ?_, ?_, ?_⟩
    · simp [postedByteLength]; omega
    · simp [postedByteLength]
    · simp only [postedByteLength, validChunkLen, List.length_map]
      have h2 : ¬(2 * inputData.length < 2) := by omega
      have h3 : 2 * inputData.length % 2 = 0 := by omega
      simp [h2, h3]
  · intro inputData channels msg h
    by_cases hstop : p.stopProcessing
    · simp [AudioProcessor.process, hstop] at h
    · rcases Nat.eq_zero_or_pos inputData.length with h0 | h0
      · simp [AudioProcessor.process, hstop, h0] at h
      · simp [AudioProcessor.process, hstop, h0] at h
        rw [← h]
        simp
  · by_cases hstop : p.stopProcessing <;> simp [AudioProcessor.process, hstop]
  · by_cases hstop : p.stopProcessing <;> simp [AudioProcessor.process, hstop]
  · intro channels
    by_cases hstop : p.stopProcessing <;> simp [AudioProcessor.process, hstop]

/-- Witness for C9 at concrete inputs. -/
theorem capture_frames_never_malformed_witness :
    validChunkLen (postedByteLength ([1/2].map floatToInt16)) = true
    ∧ ([1/2].map floatToInt16).length = [(1/2 : ℚ)].length :=
  ⟨((capture_frames_never_malformed ⟨false⟩).1 (some [[1/2]])
      ([1/2].map floatToInt16) rfl).2.2.2,
   (capture_frames_never_malformed ⟨false⟩).2.1 [1/2] []
      ([1/2].map floatToInt16) rfl⟩

/-- C7 counterexample: a conversation-text event with non-empty content
and the unrecognized role "system" is not classified as a user turn: the
handler appends nothing and invokes no callback. -/
theorem unrecognized_role_dropped :
    handleConversationText [] (some systemRoleMessage)
      = ([], TextDispatch.noCallback)
    ∧ systemRoleMessage.role = some "system"
    ∧ systemRoleMessage.content = some "hi" := by decide

/-- C7 (amended): with non-empty content, a missing or falsy role
defaults the event to a user turn, an explicit "user" role is a user
turn, "agent"/"assistant" are assistant turns, and every other non-empty
role value causes the event to be dropped entirely — neither appended
nor forwarded. -/
theorem conversationText_role_classification
    (history : List Turn) (m : ConversationTextMessage) (c : String)
    (hc : jsOrStr (jsOrStr m.content m.text) m.message = some c)
    (hcne : c ≠ "") :
    (truthyStr (jsOrStr m.role m.sender) = false →
        handleConversationText history (some m)
          = (history ++ [⟨"user", c⟩], TextDispatch.userTranscript c))
    ∧ (jsOrStr m.role m.sender = some "user" →
        handleConversationText history (some m)
          = (history ++ [⟨"user", c⟩], TextDispatch.userTranscript c))
    ∧ (∀ r, jsOrStr m.role m.sender = some r →
        (r = "agent" ∨ r = "assistant") →
        handleConversationText history (some m)
          = (history ++ [⟨"assistant", c⟩], TextDispatch.agentText c))
    ∧ (∀ r, jsOrStr m.role m.sender = some r →
        r ≠ "" → r ≠ "user" → r ≠ "agent" → r ≠ "assistant" →
        handleConversationText history (some m)
          = (history, TextDispatch.noCallback)) := by
  have htc : truthyStr (some c) = true := by simp [truthyStr, hcne]
  refine ⟨?_, ?_, ?_, ?_⟩
  · intro hrole
    simp [handleConversationText, htc, hc, hrole, hcne]
  · intro hrole
    simp [handleConversationText, htc, hc, hrole, hcne]
  · intro r hr hor
    rcases hor with rfl | rfl <;>
      simp [handleConversationText, htc, hc, hr, truthyStr, hcne]
  · intro r hr hne hu ha hs
    simp [handleConversationText, htc, hc, hr, truthyStr, hcne, hne, hu, ha, hs]

/-- Witness for the amended C7 at concrete inputs. -/
theorem conversationText_role_classification_witness :
    handleConversationText [] (some ⟨none, none, some "hello", none, none⟩)
      = ([⟨"user", "hello"⟩], TextDispatch.userTranscript "hello")
    ∧ handleConversationText [] (some systemRoleMessage)
      = ([], TextDispatch.noCallback) :=
  ⟨(conversationText_role_classification []
      ⟨none, none, some "hello", none, none⟩ "hello" (by decide) (by decide)).1
      (by decide),
   (conversationText_role_classification [] systemRoleMessage "hi"
      (by decide) (by decide)).2.2.2 "system" (by decide) (by decide)
      (by decide) (by decide) (by decide)⟩

/-- C8 counterexample: a post-configuration transport error event
arriving after the caller has begun the end-of-conversation sequence is
merely logged by both registered handlers; neither handler surfaces it
through the onError callback. -/
theorem postConfig_error_not_surfaced :
    errorEventDispositions true true closeErrorEvent
      = [ErrorDisposition.warnLog, ErrorDisposition.warnLog]
    ∧ (errorEventDispositions true true closeErrorEvent).contains
        ErrorDisposition.surfacedToOnError = false := by decide

/-- C8 (amended): every transport error event received after
configuration completes is non-fatal — suppressed when it matches a
known spurious shape (code INVALID_SETTINGS or a description containing
"Buffer") and logged as a warning otherwise — and is never surfaced
through onError and never rejects the start promise, whether or not an
end-of-conversation sequence has begun. -/
theorem postConfig_error_nonfatal (e : AgentErrorEvent) (endSeq : Bool) :
    ErrorDisposition.surfacedToOnError ∉ errorEventDispositions true endSeq e
    ∧ ErrorDisposition.rejectStartPromise ∉ errorEventDispositions true endSeq e
    ∧ (postConfigErrorHandler true e = ErrorDisposition.suppressed
        ↔ (e.code = some "INVALID_SETTINGS"
            ∨ includesBuffer e.description = true))
    ∧ (openPhaseErrorHandler true e = ErrorDisposition.warnLog
        ∨ openPhaseErrorHandler true e = ErrorDisposition.suppressed) := by
  refine ⟨?_, ?_, ?_, ?_⟩
  · simp only [errorEventDispositions, List.mem_cons, List.not_mem_nil]
    unfold openPhaseErrorHandler postConfigErrorHandler
    split_ifs <;> simp_all
  · simp only [errorEventDispositions, List.mem_cons, List.not_mem_nil]
    unfold openPhaseErrorHandler postConfigErrorHandler
    split_ifs <;> simp_all
  · unfold postConfigErrorHandler
    split_ifs with h1 h2 <;> simp_all
  · unfold openPhaseErrorHandler
    split_ifs <;> simp_all

/-- C2 counterexample: a function-call event carrying the id "c1" but no
name in any field is answered with no FunctionCallResponse at all — the
handler logs an error and returns before sending anything, so the agent
never receives a correlated response for that id. -/
theorem functionCall_missing_name_unanswered :
    missingNameEvent.id = some "c1"
    ∧ handleFunctionCallRequest missingNameEvent backendAllOk [] (some 0) 5000
        = ([], []) := by decide

/-- C2 (amended): for every function-call event from which the handler
extracts a truthy id and a truthy name (the catch-path re-extraction
agreeing on the id), exactly one FunctionCallResponse correlated to that
id is sent: a success payload for a recognized call whose backend
request succeeds, a well-formed unknown-function error payload for an
unrecognized name, and a well-formed failure payload — never an
unhandled exception — when argument parsing or the backend call fails.
Events without an extractable name are answered with nothing. -/
theorem functionCall_one_correlated_response
    (ev : FunctionCallEvent) (backend : Backend) (history : List Turn)
    (cst : Option ℕ) (now : ℕ) (i n : String)
    (hi : (extractFunctionCall ev).1 = some i) (hit : i ≠ "")
    (hn : (extractFunctionCall ev).2.1 = some n) (hnt : n ≠ "")
    (hcc : catchFunctionCallId ev = some i) :
    (handleFunctionCallRequest ev backend history cst now).2.map
        FunctionCallResponse.id = [i]
    ∧ (∀ args, (extractFunctionCall ev).2.2 = Except.ok args →
        n ≠ "analyze_conversation_practice" →
        n ≠ "save_conversation_to_history" →
        (handleFunctionCallRequest ev backend history cst now).2
          = [⟨i, n, ResponseContent.unknownFunction n⟩])
    ∧ (∀ args p, (extractFunctionCall ev).2.2 = Except.ok args →
        n = "analyze_conversation_practice" →
        backend.analyzeConversation = BackendReply.okJson p →
        (handleFunctionCallRequest ev backend history cst now).2
          = [⟨i, n, ResponseContent.success p⟩])
    ∧ (∀ args s, (extractFunctionCall ev).2.2 = Except.ok args →
        n = "analyze_conversation_practice" →
        backend.analyzeConversation = BackendReply.httpError s →
        (handleFunctionCallRequest ev backend history cst now).2
          = [⟨i, catchFunctionCallName ev,
              ResponseContent.failure ("Analysis failed: " ++ s)⟩])
    ∧ (∀ args p, (extractFunctionCall ev).2.2 = Except.ok args →
        n = "save_conversation_to_history" →
        backend.savePracticeHistory = BackendReply.okJson p →
        (handleFunctionCallRequest ev backend history cst now).2
          = [⟨i, n, ResponseContent.success p⟩])
    ∧ (∀ args s, (extractFunctionCall ev).2.2 = Except.ok args →
        n = "save_conversation_to_history" →
        backend.savePracticeHistory = BackendReply.httpError s →
        (handleFunctionCallRequest ev backend history cst now).2
          = [⟨i, catchFunctionCallName ev,
              ResponseContent.failure ("Save failed: " ++ s)⟩])
    ∧ (∀ msg, (extractFunctionCall ev).2.2 = Except.error msg →
        (handleFunctionCallRequest ev backend history cst now).2
          = [⟨i, catchFunctionCallName ev, ResponseContent.failure msg⟩]) := by
  rcases hEq : extractFunctionCall ev with ⟨idO, nameO, argsE⟩
  rw [hEq] at hi hn
  simp only at hi hn
  subst hi
  subst hn
  have hti : truthyStr (some i) = true := by simp [truthyStr, hit]
  have htn : truthyStr (some n) = true := by simp [truthyStr, hnt]
  refine ⟨?_, ?_, ?_, ?_, ?_, ?_, ?_⟩
  · cases argsE with
    | error msg =>
      simp [handleFunctionCallRequest, functionCallTry, hEq, hcc, truthyStr,
        hit]
    | ok args =>
      by_cases ha : n = "analyze_conversation_practice"
      · cases hb : backend.analyzeConversation with
        | okJson p =>
          simp [handleFunctionCallRequest, functionCallTry, hEq, ha, hb,
            truthyStr, hit, hnt, hcc]
        | httpError s =>
          simp [handleFunctionCallRequest, functionCallTry, hEq, ha, hb,
            truthyStr, hit, hnt, hcc]
      · by_cases hs2 : n = "save_conversation_to_history"
        · cases hb : backend.savePracticeHistory with
          | okJson p =>
            simp [handleFunctionCallRequest, functionCallTry, hEq, ha, hs2,
              hb, truthyStr, hit, hnt, hcc]
          | httpError s =>
            simp [handleFunctionCallRequest, functionCallTry, hEq, ha, hs2,
              hb, truthyStr, hit, hnt, hcc]
        · simp [handleFunctionCallRequest, functionCallTry, hEq, ha, hs2,
            truthyStr, hit, hnt, hcc]
  · intro args hargs ha hs2
    simp only at hargs
    subst hargs
    simp [handleFunctionCallRequest, functionCallTry, hEq, ha, hs2,
      truthyStr, hit, hnt]
  · intro args p hargs ha hb
    simp only at hargs
    subst hargs
    simp [handleFunctionCallRequest, functionCallTry, hEq, ha, hb, truthyStr,
      hit, hnt]
  · intro args s hargs ha hb
    simp only at hargs
    subst hargs
    simp [handleFunctionCallRequest, functionCallTry, hEq, ha, hb, truthyStr,
      hit, hnt, hcc]
  · intro args p hargs hs2 hb
    simp only at hargs
    subst hargs
    by_cases ha : n = "analyze_conversation_practice"
    · rw [ha] at hs2
      simp at hs2
    · simp [handleFunctionCallRequest, functionCallTry, hEq, ha, hs2, hb,
        truthyStr, hit, hnt]
  · intro args s hargs hs2 hb
    simp only at hargs
    subst hargs
    by_cases ha : n = "analyze_conversation_practice"
    · rw [ha] at hs2
      simp at hs2
    · simp [handleFunctionCallRequest, functionCallTry, hEq, ha, hs2, hb,
        truthyStr, hit, hnt, hcc]
  · intro msg hargs
    simp only at hargs
    subst hargs
    simp [handleFunctionCallRequest, functionCallTry, hEq, hcc, truthyStr,
      hit]

/-- Witness for the amended C2 at concrete inputs. -/
theorem functionCall_one_correlated_response_witness :
    (handleFunctionCallRequest analyzeCallEvent backendAllOk [] (some 0)
        5000).2.map FunctionCallResponse.id = ["id1"]
    ∧ (handleFunctionCallRequest analyzeCallEvent backendAllOk [] (some 0)
        5000).2
      = [⟨"id1", "analyze_conversation_practice",
          ResponseContent.success "analysis-result"⟩] :=
  ⟨(functionCall_one_correlated_response analyzeCallEvent backendAllOk []
      (some 0) 5000 "id1" "analyze_conversation_practice" (by decide)
      (by decide) (by decide) (by decide) (by decide)).1,
   (functionCall_one_correlated_response analyzeCallEvent backendAllOk []
      (some 0) 5000 "id1" "analyze_conversation_practice" (by decide)
      (by decide) (by decide) (by decide) (by decide)).2.2.1
      FunctionArgs.emptyObj "analysis-result" rfl rfl rfl⟩

/-- C10 counterexample: an analyze call explicitly supplying
`conversation_transcript: []` and `duration_seconds: 0` has the zero
duration replaced by the elapsed-time computation, but the explicitly
supplied empty transcript — an array, hence truthy in JavaScript — is
NOT replaced by the accumulated history: the backend request carries the
empty transcript. -/
theorem empty_transcript_not_replaced :
    (handleFunctionCallRequest emptyArrayAnalyzeEvent backendAllOk
        oneTurnHistory (some 0) 65000).1
      = [⟨"analyze-conversation", [], 65, none⟩]
    ∧ resolveTranscript (TranscriptArg.arr []) oneTurnHistory = []
    ∧ oneTurnHistory = [⟨"user", "hello"⟩] := by decide

/-- C10 (amended): default substitution applies exactly to the falsy
argument values: a duration of 0, like an absent or null one, is
replaced by the elapsed time computed from the session start timestamp,
and a non-zero duration is kept; an absent, null or empty-string
transcript falls back to the accumulated conversation history, but an
explicitly supplied array — including the empty array, which is truthy
in JavaScript — is kept as given. -/
theorem falsy_argument_defaulting
    (cst : Option ℕ) (now : ℕ) (history turns : List Turn) (m : ℤ)
    (hm : m ≠ 0) :
    resolveDuration (DurationArg.num 0) cst now = elapsedSeconds cst now
    ∧ resolveDuration DurationArg.undef cst now = elapsedSeconds cst now
    ∧ resolveDuration DurationArg.nullv cst now = elapsedSeconds cst now
    ∧ resolveDuration (DurationArg.num m) cst now = m
    ∧ resolveTranscript TranscriptArg.undef history = history
    ∧ resolveTranscript TranscriptArg.nullv history = history
    ∧ resolveTranscript TranscriptArg.emptyStr history = history
    ∧ resolveTranscript (TranscriptArg.arr turns) history = turns := by
  simp [resolveDuration, resolveTranscript, hm]

/-- Witness for the amended C10 at concrete inputs. -/
theorem falsy_argument_defaulting_witness :
    resolveDuration (DurationArg.num 0) (some 0) 65000
        = elapsedSeconds (some 0) 65000
    ∧ resolveDuration (DurationArg.num 42) (some 0) 65000 = 42
    ∧ resolveTranscript (TranscriptArg.arr []) oneTurnHistory = [] :=
  ⟨(falsy_argument_defaulting (some 0) 65000 oneTurnHistory [] 42
      (by decide)).1,
   (falsy_argument_defaulting (some 0) 65000 oneTurnHistory [] 42
      (by decide)).2.2.2.1,
   (falsy_argument_defaulting (some 0) 65000 oneTurnHistory [] 42
      (by decide)).2.2.2.2.2.2.2⟩

/-- C4: the 8-second fallback-persistence timer never issues the
save-practice-history request.  Its guard reads the `isVoiceActive`
binding captured when the callbacks were created — which is `false`,
because the start button is rendered only while the session is inactive
and `setIsVoiceActive(true)` rebinds a fresh `const` in a later render —
so the guard fails even with an analysis in hand and a live agent
reference.  Independently, `onAnalysisReady` is not among the six
declared parameters of `VoiceAgentService.start`, so the callback that
would arm the timer is never invoked at all. -/
theorem fallback_persistence_never_fires :
    fallbackTimerBody true isVoiceActiveAtCallbackCreation true = 0
    ∧ (∀ analysisHeld agentRefPresent,
        fallbackTimerBody analysisHeld isVoiceActiveAtCallbackCreation
          agentRefPresent = 0)
    ∧ voiceAgentStartParams.contains "onAnalysisReady" = false
    ∧ practiceStartArguments.contains "onAnalysisReady" = true := by
  refine ⟨rfl, ?_, by decide, by decide⟩
  intro a r
  simp [fallbackTimerBody, isVoiceActiveAtCallbackCreation]

/-- Witness for the amended C8 at concrete inputs. -/
theorem postConfig_error_nonfatal_witness :
    ErrorDisposition.surfacedToOnError ∉
        errorEventDispositions true true closeErrorEvent
    ∧ (postConfigErrorHandler true closeErrorEvent
          = ErrorDisposition.suppressed
        ↔ (closeErrorEvent.code = some "INVALID_SETTINGS"
            ∨ includesBuffer closeErrorEvent.description = true)) :=
  ⟨(postConfig_error_nonfatal closeErrorEvent true).1,
   (postConfig_error_nonfatal closeErrorEvent true).2.2.1⟩
